import Mathlib

/-!
Verification development for the `microfn` CLI's request/response gateway
(`src/microfnApiClient.ts`, class `MicroFnApiClient`).

The TypeScript source is shallowly embedded below:

* JSON values are the inductive `Json`; JavaScript property access and
  truthiness are `jsGet` / `jsTruthy`.  `JSON.parse` is external to the
  repository (a runtime primitive), so functions that consume its outcome
  take that outcome (`Option Json` / the raw text) as an argument.
* `handleApiError` (source lines 319-410) becomes the pure functions
  `parseErrorBody` / `classify400` / `handleApiError` producing an
  `ApiErrorModel` record mirroring the thrown `ApiError`.
* `remainingMs` (lines 213-225) becomes `remainingMs` over an explicit
  environment record; JavaScript number-truthiness (`if (x)` is false for
  `0` and `undefined`) is modelled explicitly.
* `fetchWithAbort` (lines 227-255) is modelled two ways: the
  `AbortController` race between the deadline timer and the inherited
  signal as a fold over an event list (`runAbortEvents`), and the
  straight-line body as the action trace `fetchWithAbortTrace`.
* `validateToken` (lines 257-299) becomes `validateToken`; `decodeJwt`
  (from the external `jose` package) is modelled by its outcome, an
  `Except String JwtPayload` whose error carries the thrown message, and
  `Date.prototype.toISOString` by an abstract rendering function.
* Each gateway operation's behaviour up to (and including) the point where
  it issues its HTTP request — or throws locally — is the per-operation
  `...Requests` action trace.
-/

/-- JSON values, as produced by `JSON.parse`.  Numbers are modelled as
integers (no claim depends on fractional values); `JSON.parse` never
produces duplicate keys in an object. -/
inductive Json where
  | null
  | bool (b : Bool)
  | num (n : Int)
  | str (s : String)
  | arr (elems : List Json)
  | obj (fields : List (String × Json))

/-- JavaScript property access `j[k]` on a parsed JSON value: `none` models
`undefined` (missing key, or access on a non-object).  Mirrors the guarded
accesses `isErrorObject(errorBody) && errorBody.<k>` in the source. -/
def jsGet : Json → String → Option Json
  | .obj fields, k => fields.lookup k
  | _, _ => none

/-- JavaScript truthiness of a JSON value: `null`, `false`, `0` and `""`
are falsy; every object and array is truthy. -/
def jsTruthy : Json → Bool
  | .null => false
  | .bool b => b
  | .num n => n != 0
  | .str s => s != ""
  | .arr _ => true
  | .obj _ => true

/-- Truthiness of `j.<k>` as a JavaScript condition (an absent property is
`undefined`, which is falsy). -/
def jsFieldTruthy (j : Json) (k : String) : Bool :=
  match jsGet j k with
  | some v => jsTruthy v
  | none => false

/-- `typeof j.<k> === "string" ? j.<k> : null`, i.e. the property when it is
a string. -/
def jsGetStr (j : Json) (k : String) : Option String :=
  match jsGet j k with
  | some (.str s) => some s
  | _ => none

/-- The type guard `isErrorObject` of `handleApiError` (source lines
346-348): `typeof obj === "object" && obj !== null`.  In JavaScript this is
true for arrays as well. -/
def isErrorObject : Json → Bool
  | .obj _ => true
  | .arr _ => true
  | _ => false

/-- The `ApiError` thrown by `handleApiError` (source lines 26-43):
sanitized user-facing message and details, plus the raw parsed body kept
for logging only. -/
structure ApiErrorModel where
  userMessage : String
  statusCode : Nat
  details : Json
  rawError : Json

/-- First stage of `handleApiError` (source lines 323-333): obtain
`errorBody` from the response text.  `parsed` is the outcome of the runtime
primitive `JSON.parse responseText` (`none` when it throws); it is only
consulted when the text is non-empty, exactly as in the source. -/
def parseErrorBody (statusText responseText : String) (parsed : Option Json) : Json :=
  if responseText ≠ "" then
    match parsed with
    | some j => j
    | none => Json.obj [("message", Json.str responseText)]
  else
    Json.obj [("message", Json.str ("Request failed: " ++ statusText))]

/-- The `case 400` branch of `handleApiError` (source lines 351-377),
returning `(userMessage, userDetails)`.  Note the JavaScript conditions:
`errorBody.errors` and `errorBody.validation_errors` are tested for
truthiness, and the second branch computes
`(typeof errorBody.error === "string" ? errorBody.error : null) || "Code validation failed"`,
so an empty-string `error` field also falls back to the default there. -/
def classify400 (errorBody : Json) : String × Json :=
  if isErrorObject errorBody && jsFieldTruthy errorBody "errors" then
    ("Validation failed",
      Json.obj [("validation_errors", (jsGet errorBody "errors").getD Json.null)])
  else if isErrorObject errorBody && jsFieldTruthy errorBody "validation_errors" then
    ((match jsGetStr errorBody "error" with
      | some s => if s = "" then "Code validation failed" else s
      | none => "Code validation failed"),
      Json.obj [("validation_errors", (jsGet errorBody "validation_errors").getD Json.null)])
  else if isErrorObject errorBody && (jsGetStr errorBody "error").isSome then
    ((jsGetStr errorBody "error").getD "", Json.obj [])
  else if isErrorObject errorBody && (jsGetStr errorBody "message").isSome then
    ((jsGetStr errorBody "message").getD "", Json.obj [])
  else
    ("Invalid request", Json.obj [])

/-- `handleApiError` (source lines 319-410) as a pure function of the
response status, status text, body text, and the `JSON.parse` outcome for
that body text.  The `switch (res.status)` becomes the chain of equality
tests; 500/502/503 share one branch exactly as the `case` fallthrough
does. -/
def handleApiError (status : Nat) (statusText responseText : String)
    (parsed : Option Json) : ApiErrorModel :=
  let errorBody := parseErrorBody statusText responseText parsed
  let mp : String × Json :=
    if status = 400 then
      classify400 errorBody
    else if status = 401 then
      ("Authentication required", Json.obj [])
    else if status = 403 then
      ("Permission denied", Json.obj [])
    else if status = 404 then
      ((match jsGetStr errorBody "error" with
        | some s => if s = "" then "Resource not found" else s
        | none => "Resource not found"), Json.obj [])
    else if status = 429 then
      ("Rate limit exceeded. Please try again later", Json.obj [])
    else if status = 500 ∨ status = 502 ∨ status = 503 then
      ("A server error occurred. Please try again later", Json.obj [])
    else
      ("Request failed: " ++ statusText, Json.obj [])
  ⟨mp.1, status, mp.2, errorBody⟩

/-- Spec-side table (from the spec's words): the fixed user message the
classifier is required to produce for the six "suppress all detail" status
codes. -/
def fixedStatusMessageStr : Nat → String
  | 401 => "Authentication required"
  | 403 => "Permission denied"
  | 429 => "Rate limit exceeded. Please try again later"
  | 500 => "A server error occurred. Please try again later"
  | 502 => "A server error occurred. Please try again later"
  | 503 => "A server error occurred. Please try again later"
  | _ => ""

/-- The fields of the worker environment object `this.env` read by
`remainingMs`: `__CURRENT_DEADLINE_TS` and `MCP_DEFAULT_FETCH_TIMEOUT_MS`.
`none` models an absent (`undefined`) field. -/
structure ClientEnv where
  currentDeadlineTs : Option Int
  mcpDefaultFetchTimeoutMs : Option Int

/-- `remainingMs` (source lines 213-225).  Times are integer milliseconds;
`nowMs` is `Date.now()`.  JavaScript `if (opts?.timeoutMs)` and `if (dl)`
are truthiness tests, so a supplied value of `0` falls through, while
`?? 20000` is nullish coalescing, so an environment-supplied default is
used even when it is `0`. -/
def remainingMs (env : Option ClientEnv) (timeoutMs : Option Int) (nowMs : Int) : Int :=
  let dflt : Int :=
    match env with
    | some e => e.mcpDefaultFetchTimeoutMs.getD 20000
    | none => 20000
  let noExplicit : Int :=
    match env.bind fun e => e.currentDeadlineTs with
    | some dl => if dl ≠ 0 then max 1 (dl - nowMs) else dflt
    | none => dflt
  match timeoutMs with
  | some t => if t ≠ 0 then t else noExplicit
  | none => noExplicit

/-- Spec-side (from the spec's words): the default timeout used when
neither an explicit timeout nor a deadline applies. -/
def configuredDefaultMs (env : Option ClientEnv) : Int :=
  match env with
  | some e => e.mcpDefaultFetchTimeoutMs.getD 20000
  | none => 20000

/-- The two abort reasons `fetchWithAbort` can pass to `ctrl.abort`
(source lines 238 and 243). -/
inductive AbortReason where
  | deadline
  | transportTimeout
deriving DecidableEq

/-- The one `AbortController` owned by a `fetchWithAbort` call; Web
platform semantics: only the first `abort` sets the reason, later calls
are ignored. -/
structure AbortCtrl where
  abortReason : Option AbortReason
deriving DecidableEq

/-- `ctrl.abort(r)`: records `r` only if the controller is not yet
aborted. -/
def AbortCtrl.abort (c : AbortCtrl) (r : AbortReason) : AbortCtrl :=
  match c.abortReason with
  | some _ => c
  | none => ⟨some r⟩

/-- The asynchronous events that can reach the controller while the
transport call is in flight. -/
inductive AbortEvent where
  | timerFires
  | outerSignalFires
deriving DecidableEq

/-- Effect of one event on the controller, as wired by `fetchWithAbort`:
the timer callback is `() => ctrl.abort("deadline")` (line 238) and the
inherited signal's listener — registered only when an outer signal exists —
is `() => ctrl.abort("transport-timeout")` (lines 240-248). -/
def abortStep (hasOuterSignal : Bool) (c : AbortCtrl) : AbortEvent → AbortCtrl
  | .timerFires => c.abort .deadline
  | .outerSignalFires => if hasOuterSignal then c.abort .transportTimeout else c

/-- Controller state after an arbitrary sequence of events, starting from
the fresh controller `new AbortController()`. -/
def runAbortEvents (hasOuterSignal : Bool) (evs : List AbortEvent) : AbortCtrl :=
  evs.foldl (abortStep hasOuterSignal) ⟨none⟩

/-- Which signal object a transport call receives. -/
inductive SignalKind where
  | derived
  | inherited
deriving DecidableEq

/-- Observable actions of the straight-line body of `fetchWithAbort`. -/
inductive ExecAction where
  | startTimer (timeoutMs : Int)
  | registerOuterAbortListener
  | transportFetch (url : String) (signal : SignalKind)
  | clearTimer
deriving DecidableEq

/-- Action trace of `fetchWithAbort` (source lines 227-255): start the
timer with the resolved timeout, register the abort listener when an outer
signal is present, call `fetch(url, {...init, signal: ctrl.signal})` —
always with the derived controller's signal — and clear the timer in the
`finally` block.  `fetchResolves` records whether the transport call
resolved or rejected; the trace does not depend on it because `finally`
runs on both paths. -/
def fetchWithAbortTrace (env : Option ClientEnv) (timeoutMs : Option Int) (nowMs : Int)
    (hasOuterSignal : Bool) (url : String) (fetchResolves : Bool) : List ExecAction :=
  [ExecAction.startTimer (remainingMs env timeoutMs nowMs)]
    ++ (if hasOuterSignal then [ExecAction.registerOuterAbortListener] else [])
    ++ [ExecAction.transportFetch url SignalKind.derived]
    ++ [ExecAction.clearTimer]

/-- `String.prototype.split(".")` modelled on character lists: `splitParts`
returns the dot-separated segments (a list with one more element than there
are dots, like the JavaScript method). -/
def splitParts : List Char → List (List Char)
  | [] => [[]]
  | c :: cs =>
    match splitParts cs with
    | [] => [[]]
    | p :: ps => if c = '.' then [] :: p :: ps else (c :: p) :: ps

/-- `token.split(".").length` of `validateToken` (source line 269). -/
def jwsPartCount (token : String) : Nat :=
  (splitParts token.data).length

/-- `String.prototype.startsWith(p)`. -/
def strStartsWith (s p : String) : Bool :=
  p.data.isPrefixOf s.data

/-- Substring search on character lists: does `needle` occur contiguously
in `hay`? -/
def hasSub (hay needle : List Char) : Bool :=
  match hay with
  | [] => needle.isEmpty
  | _ :: t => needle.isPrefixOf hay || hasSub t needle

/-- `String.prototype.includes(needle)`, used by the `catch` clause of
`validateToken` (source line 284). -/
def strIncludes (hay needle : String) : Bool :=
  hasSub hay.data needle.data

/-- The payload fields of the decoded JWT that `validateToken` reads:
only the `exp` claim (`none` models a payload without `exp`). -/
structure JwtPayload where
  exp : Option Int
deriving DecidableEq

/-- The message of the error thrown on line 279-281:
`ID token expired at ${expiredAt}. Please re-authenticate.` -/
def expiredMessage (iso : String) : String :=
  "ID token expired at " ++ iso ++ ". Please re-authenticate."

/-- Outcome of `validateToken`: it returns `void` or throws an `Error`
with the given message. -/
inductive TokenValidation where
  | ok
  | thrown (message : String)
deriving DecidableEq

/-- Body of the `try` block of `validateToken` (source lines 271-282) for a
three-segment token.  `decoded` is the outcome of the external
`decodeJwt(this.apiToken)` (from `jose`): `.error m` models it throwing an
error whose `message` is `m`, `.ok p` a successful decode.  `isoRender ms`
models `new Date(ms).toISOString()`.  `currentTime` is
`Math.floor(Date.now() / 1000)`; when the payload has no `exp` claim the
JavaScript comparison `currentTime >= undefined` is `false`, so no error is
thrown. -/
def jwtExpiryCheck (decoded : Except String JwtPayload) (nowMs : Int)
    (isoRender : Int → String) : Except String Unit :=
  match decoded with
  | .error m => .error m
  | .ok payload =>
    let currentTime := Int.fdiv nowMs 1000
    match payload.exp with
    | some tokenExp =>
      if currentTime ≥ tokenExp then
        .error (expiredMessage (isoRender (tokenExp * 1000)))
      else
        .ok ()
    | none => .ok ()

/-- `validateToken` (source lines 257-299).  PAT (`mfn_`/`mfp_`) and MCP
(`mcp_`) tokens return immediately; only tokens with exactly three
dot-separated segments are checked; the `catch` clause rethrows any error
whose message includes `"expired"` and converts every other failure into
`Error("Invalid ID token")`; tokens with any other segment count skip
validation entirely. -/
def validateToken (token : String) (decoded : Except String JwtPayload) (nowMs : Int)
    (isoRender : Int → String) : TokenValidation :=
  if strStartsWith token "mfn_" || strStartsWith token "mfp_" then
    .ok
  else if strStartsWith token "mcp_" then
    .ok
  else if jwsPartCount token = 3 then
    match jwtExpiryCheck decoded nowMs isoRender with
    | .ok _ => .ok
    | .error m => if strIncludes m "expired" then .thrown m else .thrown "Invalid ID token"
  else
    .ok

/-- Observable actions a gateway operation performs up to (and including)
issuing its HTTP request, or failing locally. -/
inductive GatewayAction where
  | validateTokenCall
  | httpRequest (method url : String)
  | throwLocalError (message : String)
deriving DecidableEq

/-- `listWorkspaces` (source lines 514-581): validates the token, then
`GET ${this.runBaseUrl}/api/v1/functions`. -/
def listWorkspacesRequests (runBaseUrl : String) : List GatewayAction :=
  [GatewayAction.validateTokenCall,
   GatewayAction.httpRequest "GET" (runBaseUrl ++ "/api/v1/functions")]

/-- `listPackages` (source lines 414-435). -/
def listPackagesRequests (baseUrl username functionName : String) : List GatewayAction :=
  [GatewayAction.httpRequest "GET"
    (baseUrl ++ "/v1/functions/" ++ username ++ "/" ++ functionName ++ "/packages")]

/-- `createWorkspace` (source lines 439-480). -/
def createWorkspaceRequests (baseUrl : String) : List GatewayAction :=
  [GatewayAction.httpRequest "POST" (baseUrl ++ "/v1/functions")]

/-- `renameWorkspace` (source lines 491-512). -/
def renameWorkspaceRequests (baseUrl username functionName : String) : List GatewayAction :=
  [GatewayAction.httpRequest "PATCH"
    (baseUrl ++ "/v1/functions/" ++ username ++ "/" ++ functionName)]

/-- `getFunctionCode` (source lines 585-608). -/
def getFunctionCodeRequests (baseUrl username functionName : String) : List GatewayAction :=
  [GatewayAction.httpRequest "GET"
    (baseUrl ++ "/v1/functions/" ++ username ++ "/" ++ functionName ++ "/code")]

/-- `getFunction` (source lines 611-628). -/
def getFunctionRequests (baseUrl username functionName : String) : List GatewayAction :=
  [GatewayAction.httpRequest "GET"
    (baseUrl ++ "/v1/functions/" ++ username ++ "/" ++ functionName)]

/-- `updateFunctionCode` (source lines 630-647); `updateWorkspace`
(lines 482-489) simply forwards to it. -/
def updateFunctionCodeRequests (baseUrl username functionName : String) : List GatewayAction :=
  [GatewayAction.httpRequest "POST"
    (baseUrl ++ "/v1/functions/" ++ username ++ "/" ++ functionName ++ "/code")]

/-- `updateFunctionSettings` (source lines 649-666). -/
def updateFunctionSettingsRequests (baseUrl username functionName : String) : List GatewayAction :=
  [GatewayAction.httpRequest "PATCH"
    (baseUrl ++ "/v1/functions/" ++ username ++ "/" ++ functionName ++ "/settings")]

/-- `executeFunction` (source lines 670-715). -/
def executeFunctionRequests (baseUrl username functionName : String) : List GatewayAction :=
  [GatewayAction.httpRequest "POST"
    (baseUrl ++ "/v1/functions/" ++ username ++ "/" ++ functionName ++ "/run")]

/-- `getLatestDeployment` (source lines 719-745). -/
def getLatestDeploymentRequests (baseUrl username functionName : String) : List GatewayAction :=
  [GatewayAction.httpRequest "GET"
    (baseUrl ++ "/v1/functions/" ++ username ++ "/" ++ functionName ++ "/deployments/latest")]

/-- `waitForDeployment` (source lines 747-798). -/
def waitForDeploymentRequests (baseUrl username functionName : String) : List GatewayAction :=
  [GatewayAction.httpRequest "POST"
    (baseUrl ++ "/v1/functions/" ++ username ++ "/" ++ functionName ++ "/wait_deployment")]

/-- `listSecrets` (source lines 802-815). -/
def listSecretsRequests (baseUrl username functionName : String) : List GatewayAction :=
  [GatewayAction.httpRequest "GET"
    (baseUrl ++ "/v1/functions/" ++ username ++ "/" ++ functionName ++ "/secrets")]

/-- `createSecret` (source lines 817-835). -/
def createSecretRequests (baseUrl username functionName : String) : List GatewayAction :=
  [GatewayAction.httpRequest "POST"
    (baseUrl ++ "/v1/functions/" ++ username ++ "/" ++ functionName ++ "/secrets")]

/-- `updateSecret` (source lines 837-848): throws immediately, before any
request is built; all parameters are unused by the source (they are named
`_username` etc. there). -/
def updateSecretRequests (username functionName secretId value : String) : List GatewayAction :=
  [GatewayAction.throwLocalError "Update secret not implemented - use create/delete instead"]

/-- `deleteSecret` (source lines 850-865); `uriEncode` models the runtime
primitive `encodeURIComponent`. -/
def deleteSecretRequests (baseUrl username functionName secretId : String)
    (uriEncode : String → String) : List GatewayAction :=
  [GatewayAction.httpRequest "DELETE"
    (baseUrl ++ "/v1/functions/" ++ username ++ "/" ++ functionName ++ "/secrets/"
      ++ uriEncode secretId)]

/-- `generateFunction` (source lines 869-884). -/
def generateFunctionRequests (baseUrl : String) : List GatewayAction :=
  [GatewayAction.httpRequest "POST" (baseUrl ++ "/v1/generate/function")]

/-- `rewriteFunction` (source lines 886-890): throws immediately; the
`code` parameter is unused by the source (named `_params` there). -/
def rewriteFunctionRequests (code : String) : List GatewayAction :=
  [GatewayAction.throwLocalError "Function rewrite endpoint is not available via v1 API."]

/-- `checkCode` (source lines 893-905). -/
def checkCodeRequests (baseUrl : String) : List GatewayAction :=
  [GatewayAction.httpRequest "POST" (baseUrl ++ "/v1/functions/check_code")]

/-- `getFunctionDetails` (source lines 908-926). -/
def getFunctionDetailsRequests (baseUrl username functionName : String) : List GatewayAction :=
  [GatewayAction.httpRequest "GET"
    (baseUrl ++ "/v1/functions/" ++ username ++ "/" ++ functionName)]

/-- Does a trace invoke the local token validator? -/
def hasValidateB (tr : List GatewayAction) : Bool :=
  tr.any fun a => match a with
    | .validateTokenCall => true
    | _ => false

/-- Does a trace issue at least one HTTP request? -/
def hasRequestB (tr : List GatewayAction) : Bool :=
  tr.any fun a => match a with
    | .httpRequest _ _ => true
    | _ => false

lemma isPrefixOf_append_left (n a b : List Char) (h : n.isPrefixOf a = true) :
    n.isPrefixOf (a ++ b) = true := by
  induction n generalizing a with
  | nil => simp [List.isPrefixOf]
  | cons c cs ih =>
    cases a with
    | nil => simp [List.isPrefixOf] at h
    | cons d ds =>
      simp only [List.cons_append, List.isPrefixOf, Bool.and_eq_true] at h ⊢
      exact ⟨h.1, ih ds h.2⟩

lemma hasSub_nil_needle (h : List Char) : hasSub h [] = true := by
  cases h with
  | nil => rfl
  | cons c t => simp [hasSub, List.isPrefixOf]

lemma hasSub_append_left (a b n : List Char) (h : hasSub a n = true) :
    hasSub (a ++ b) n = true := by
  induction a with
  | nil =>
    have hn : n = [] := by
      simpa [hasSub, List.isEmpty_iff] using h
    subst hn
    exact hasSub_nil_needle b
  | cons c t ih =>
    simp only [hasSub, Bool.or_eq_true] at h
    simp only [List.cons_append, hasSub, Bool.or_eq_true]
    rcases h with h | h
    · exact Or.inl (isPrefixOf_append_left n (c :: t) b h)
    · exact Or.inr (ih h)

lemma strIncludes_expiredMessage (iso : String) :
    strIncludes (expiredMessage iso) "expired" = true := by
  unfold strIncludes expiredMessage
  rw [String.data_append, String.data_append, List.append_assoc]
  exact hasSub_append_left _ _ _ (by decide)

lemma jsGet_some_isErrorObject {j : Json} {k : String} {v : Json}
    (h : jsGet j k = some v) : isErrorObject j = true := by
  cases j <;> simp [jsGet, isErrorObject] at h ⊢

lemma jsGetStr_some_jsGet {j : Json} {k : String} {s : String}
    (h : jsGetStr j k = some s) : jsGet j k = some (Json.str s) := by
  unfold jsGetStr at h
  cases hg : jsGet j k with
  | none => rw [hg] at h; simp at h
  | some v =>
    rw [hg] at h
    cases v <;> simp at h
    simp [h]

/-- C1 (amended): for every response whose status is one of 401, 403, 429,
500, 502, 503, `handleApiError` sets `userMessage` to exactly the fixed
string for that status, and the message is identical for any two responses
with that status regardless of their bodies (so body content never
influences it; as the counterexample shows, the fixed message may still
coincidentally contain the body text as a substring). -/
theorem handleApiError_fixed_userMessage (status : Nat)
    (h : status = 401 ∨ status = 403 ∨ status = 429 ∨ status = 500 ∨ status = 502 ∨
      status = 503) :
    ∀ statusText responseText parsed statusText' responseText' parsed',
      (handleApiError status statusText responseText parsed).userMessage
        = fixedStatusMessageStr status ∧
      (handleApiError status statusText responseText parsed).userMessage
        = (handleApiError status statusText' responseText' parsed').userMessage := by
  rcases h with h | h | h | h | h | h <;> subst h <;>
    intro _ _ _ _ _ _ <;> exact ⟨rfl, rfl⟩

/-- Witness for C1: a 401 response with one body and a 401 response with a
different body yield the same fixed message. -/
theorem handleApiError_fixed_userMessage_witness :
    (handleApiError 401 "Unauthorized" "secret internal detail" none).userMessage
      = fixedStatusMessageStr 401 ∧
    (handleApiError 401 "Unauthorized" "secret internal detail" none).userMessage
      = (handleApiError 401 "Unauthorized" "other body" (some (Json.obj []))).userMessage :=
  handleApiError_fixed_userMessage 401 (Or.inl rfl) "Unauthorized" "secret internal detail"
    none "Unauthorized" "other body" (some (Json.obj []))

/-- C1 counterexample: a 403 response whose raw body text is `denied` (not
valid JSON, so `JSON.parse` throws and the body is wrapped) gets the fixed
message `Permission denied`, which does contain the body text as a
substring — so "never contains the body text", read literally, fails. -/
theorem handleApiError_body_substring_cex :
    (handleApiError 403 "Forbidden" "denied" none).userMessage = "Permission denied" ∧
    strIncludes "Permission denied" "denied" = true :=
  ⟨rfl, by decide⟩

/-- C2 (amended): `remainingMs` resolves, in order: a supplied nonzero
explicit timeout; otherwise, when a nonzero inherited deadline timestamp is
present, the remaining time to it clamped below at 1 ms (so a deadline
already in the past resolves to exactly 1 ms); otherwise the
environment-configured `MCP_DEFAULT_FETCH_TIMEOUT_MS` when present, else
20000 ms.  A supplied explicit timeout of 0 is falsy in JavaScript and
falls through to the later rules. -/
theorem remainingMs_resolution :
    ∀ (env : Option ClientEnv) (timeoutMs : Option Int) (nowMs : Int),
      (∀ t, timeoutMs = some t → t ≠ 0 → remainingMs env timeoutMs nowMs = t) ∧
      ((timeoutMs = none ∨ timeoutMs = some 0) →
        ∀ e dl, env = some e → e.currentDeadlineTs = some dl → dl ≠ 0 →
          remainingMs env timeoutMs nowMs = max 1 (dl - nowMs)) ∧
      ((timeoutMs = none ∨ timeoutMs = some 0) →
        (Option.bind env (fun e => e.currentDeadlineTs) = none ∨
          Option.bind env (fun e => e.currentDeadlineTs) = some 0) →
        remainingMs env timeoutMs nowMs = configuredDefaultMs env) := by
  intro env timeoutMs nowMs
  refine ⟨?_, ?_, ?_⟩
  · intro t ht hnz
    subst ht
    simp [remainingMs, hnz]
  · intro hto e dl he hdl hnz
    subst he
    rcases hto with h | h <;> subst h <;>
      simp [remainingMs, Option.bind, hdl, hnz]
  · intro hto hdl
    rcases hto with h | h <;> subst h <;>
      rcases hdl with h' | h' <;>
        simp [remainingMs, configuredDefaultMs, h']

/-- Witness for C2: with an inherited deadline 50 ms in the past
(deadline 950, now 1000) and no explicit timeout, the resolved timeout is
`max 1 (950 - 1000) = 1` — clamped, not negative. -/
theorem remainingMs_resolution_witness :
    remainingMs (some ⟨some 950, none⟩) none 1000 = max 1 ((950 : Int) - 1000) ∧
    max 1 ((950 : Int) - 1000) = 1 :=
  ⟨(remainingMs_resolution (some ⟨some 950, none⟩) none 1000).2.1 (Or.inl rfl)
      ⟨some 950, none⟩ 950 rfl rfl (by decide),
    by decide⟩

/-- C2 counterexample: with no explicit timeout and no deadline, the code
falls back to `env.MCP_DEFAULT_FETCH_TIMEOUT_MS ?? 20000`, so an
environment that sets `MCP_DEFAULT_FETCH_TIMEOUT_MS = 5000` resolves to
5000, not the fixed 20000 the claim states. -/
theorem remainingMs_env_default_cex :
    remainingMs (some ⟨none, some 5000⟩) none 0 = 5000 ∧ (5000 : Int) ≠ 20000 :=
  ⟨rfl, by decide⟩

/-- C7 (amended): `handleApiError`'s body stage synthesizes
`\x7bmessage: "Request failed: " ++ statusText\x7d` for an empty body (the
prefixed string, not the bare status text), and wraps a non-empty body that
fails JSON parsing as `\x7bmessage: rawText\x7d` with the raw text
unchanged. -/
theorem parseErrorBody_synthesis (statusText responseText : String) (parsed : Option Json) :
    (responseText = "" →
      parseErrorBody statusText responseText parsed
        = Json.obj [("message", Json.str ("Request failed: " ++ statusText))]) ∧
    (responseText ≠ "" → parsed = none →
      parseErrorBody statusText responseText parsed
        = Json.obj [("message", Json.str responseText)]) := by
  constructor
  · intro h
    simp [parseErrorBody, h]
  · intro h hp
    simp [parseErrorBody, h, hp]

/-- Witness for C7: an empty 502 body synthesizes the prefixed message; a
non-JSON body is wrapped verbatim. -/
theorem parseErrorBody_synthesis_witness :
    parseErrorBody "Bad Gateway" "" none
      = Json.obj [("message", Json.str ("Request failed: " ++ "Bad Gateway"))] ∧
    parseErrorBody "Bad Gateway" "<html>oops" none
      = Json.obj [("message", Json.str "<html>oops")] :=
  ⟨(parseErrorBody_synthesis "Bad Gateway" "" none).1 rfl,
    (parseErrorBody_synthesis "Bad Gateway" "<html>oops" none).2 (by decide) rfl⟩

/-- C7 counterexample: for an empty body with status text `Not Found`, the
synthesized message is `Request failed: Not Found`, which is not exactly
the HTTP status text as the claim states. -/
theorem parseErrorBody_statusText_cex :
    parseErrorBody "Not Found" "" none
      = Json.obj [("message", Json.str "Request failed: Not Found")] ∧
    "Request failed: Not Found" ≠ "Not Found" :=
  ⟨rfl, by decide⟩

lemma abortStep_some (hasOuterSignal : Bool) (r : AbortReason) (e : AbortEvent) :
    abortStep hasOuterSignal ⟨some r⟩ e = ⟨some r⟩ := by
  cases e with
  | timerFires => rfl
  | outerSignalFires => cases hasOuterSignal <;> rfl

lemma foldl_abortStep_some (hasOuterSignal : Bool) (r : AbortReason) (evs : List AbortEvent) :
    evs.foldl (abortStep hasOuterSignal) ⟨some r⟩ = ⟨some r⟩ := by
  induction evs with
  | nil => rfl
  | cons e t ih => rw [List.foldl_cons, abortStep_some, ih]

/-- C3: if the inherited signal fires before the timer, the controller's
reason is `transport-timeout`; if the timer fires first, `deadline`;
whichever reason is set first is never overwritten (exactly one wins); the
`finally` block clears the timer on every completion path; and the
transport call always receives the derived controller signal, never the
inherited one. -/
theorem fetchWithAbort_cancellation :
    (∀ evs : List AbortEvent,
      (runAbortEvents true (AbortEvent.outerSignalFires :: evs)).abortReason
        = some AbortReason.transportTimeout) ∧
    (∀ (hasOuterSignal : Bool) (evs : List AbortEvent),
      (runAbortEvents hasOuterSignal (AbortEvent.timerFires :: evs)).abortReason
        = some AbortReason.deadline) ∧
    (∀ (hasOuterSignal : Bool) (evs more : List AbortEvent) (r : AbortReason),
      (runAbortEvents hasOuterSignal evs).abortReason = some r →
      (runAbortEvents hasOuterSignal (evs ++ more)).abortReason = some r) ∧
    (∀ env timeoutMs nowMs hasOuterSignal url fetchResolves,
      ExecAction.clearTimer
        ∈ fetchWithAbortTrace env timeoutMs nowMs hasOuterSignal url fetchResolves) ∧
    (∀ env timeoutMs nowMs hasOuterSignal url fetchResolves u s,
      ExecAction.transportFetch u s
          ∈ fetchWithAbortTrace env timeoutMs nowMs hasOuterSignal url fetchResolves →
        s = SignalKind.derived) := by
  refine ⟨?_, ?_, ?_, ?_, ?_⟩
  · intro evs
    show (evs.foldl (abortStep true) (abortStep true ⟨none⟩ .outerSignalFires)).abortReason
      = some AbortReason.transportTimeout
    rw [show abortStep true ⟨none⟩ .outerSignalFires
        = (⟨some AbortReason.transportTimeout⟩ : AbortCtrl) from rfl]
    rw [foldl_abortStep_some]
  · intro hasOuterSignal evs
    show (evs.foldl (abortStep hasOuterSignal)
        (abortStep hasOuterSignal ⟨none⟩ .timerFires)).abortReason
      = some AbortReason.deadline
    rw [show abortStep hasOuterSignal ⟨none⟩ .timerFires
        = (⟨some AbortReason.deadline⟩ : AbortCtrl) from rfl]
    rw [foldl_abortStep_some]
  · intro hasOuterSignal evs more r h
    unfold runAbortEvents at h ⊢
    rw [List.foldl_append]
    have hctrl : evs.foldl (abortStep hasOuterSignal) ⟨none⟩ = ⟨some r⟩ := by
      cases hc : evs.foldl (abortStep hasOuterSignal) ⟨none⟩ with
      | mk reason => rw [hc] at h; simp at h; rw [h]
    rw [hctrl, foldl_abortStep_some]
  · intro env timeoutMs nowMs hasOuterSignal url fetchResolves
    cases hasOuterSignal <;> simp [fetchWithAbortTrace]
  · intro env timeoutMs nowMs hasOuterSignal url fetchResolves u s h
    cases hasOuterSignal <;> simp [fetchWithAbortTrace] at h <;> exact h.2

/-- Witness for C3: with the outer signal firing first the reason is
`transport-timeout`; a controller whose reason is already `deadline` keeps
it when further events arrive. -/
theorem fetchWithAbort_cancellation_witness :
    (runAbortEvents true (AbortEvent.outerSignalFires :: [AbortEvent.timerFires])).abortReason
      = some AbortReason.transportTimeout ∧
    (runAbortEvents true ([AbortEvent.timerFires] ++ [AbortEvent.outerSignalFires])).abortReason
      = some AbortReason.deadline ∧
    ExecAction.transportFetch "https://microfn.dev/api/v1/functions" SignalKind.derived
        = ExecAction.transportFetch "https://microfn.dev/api/v1/functions" SignalKind.derived :=
  ⟨fetchWithAbort_cancellation.1 [AbortEvent.timerFires],
    fetchWithAbort_cancellation.2.2.1 true [AbortEvent.timerFires]
      [AbortEvent.outerSignalFires] AbortReason.deadline
      (fetchWithAbort_cancellation.2.1 true []),
    rfl⟩

/-- C4 (amended): for every token that does not carry one of the recognized
prefixes `mfn_`/`mfp_`/`mcp_` and has exactly three dot-separated segments:
when decoding succeeds with an `exp` claim, validation throws the expired
error carrying `toISOString` rendered at exactly `exp * 1000` ms iff the
current time (in whole seconds) is at or past `exp`, and succeeds when the
expiry is in the future; when decoding fails (for a reason other than
expiry, i.e. the thrown message does not mention `expired`), validation
throws `Invalid ID token`. -/
theorem validateToken_idToken_expiry (token : String) (nowMs : Int) (isoRender : Int → String)
    (h1 : strStartsWith token "mfn_" = false) (h2 : strStartsWith token "mfp_" = false)
    (h3 : strStartsWith token "mcp_" = false) (hparts : jwsPartCount token = 3) :
    (∀ e : Int, Int.fdiv nowMs 1000 ≥ e →
      validateToken token (Except.ok ⟨some e⟩) nowMs isoRender
        = TokenValidation.thrown (expiredMessage (isoRender (e * 1000)))) ∧
    (∀ e : Int, Int.fdiv nowMs 1000 < e →
      validateToken token (Except.ok ⟨some e⟩) nowMs isoRender = TokenValidation.ok) ∧
    (∀ m : String, strIncludes m "expired" = false →
      validateToken token (Except.error m) nowMs isoRender
        = TokenValidation.thrown "Invalid ID token") := by
  have hcond : ¬((strStartsWith token "mfn_" || strStartsWith token "mfp_") = true) := by
    simp [h1, h2]
  have hcond3 : ¬(strStartsWith token "mcp_" = true) := by simp [h3]
  refine ⟨?_, ?_, ?_⟩
  · intro e he
    unfold validateToken
    rw [if_neg hcond, if_neg hcond3, if_pos hparts]
    have hchk : jwtExpiryCheck (Except.ok ⟨some e⟩) nowMs isoRender
        = Except.error (expiredMessage (isoRender (e * 1000))) := by
      simp [jwtExpiryCheck, he]
    rw [hchk]
    simp [strIncludes_expiredMessage]
  · intro e he
    unfold validateToken
    rw [if_neg hcond, if_neg hcond3, if_pos hparts]
    have hchk : jwtExpiryCheck (Except.ok ⟨some e⟩) nowMs isoRender = Except.ok () := by
      simp [jwtExpiryCheck, not_le.mpr he]
    rw [hchk]
  · intro m hm
    unfold validateToken
    rw [if_neg hcond, if_neg hcond3, if_pos hparts]
    have hchk : jwtExpiryCheck (Except.error m) nowMs isoRender = Except.error m := rfl
    rw [hchk]
    simp [hm]

/-- Witness for C4: the three-segment non-PAT token `h.p.s` whose payload
decodes with `exp = 100`, checked at 200000 ms (200 s, past the expiry),
throws the expired error rendered at 100000 ms. -/
theorem validateToken_idToken_expiry_witness :
    validateToken "h.p.s" (Except.ok ⟨some 100⟩) 200000
        (fun _ => "1970-01-01T00:01:40.000Z")
      = TokenValidation.thrown (expiredMessage "1970-01-01T00:01:40.000Z") :=
  (validateToken_idToken_expiry "h.p.s" 200000 (fun _ => "1970-01-01T00:01:40.000Z")
    (by decide) (by decide) (by decide) (by decide)).1 100 (by decide)

/-- C4 counterexample: `mfn_hdr.eyJleHAiOjEwMH0.sig` has exactly three
dot-separated segments and its middle segment is the base64url encoding of
`\x7b"exp":100\x7d`, yet because the token starts with `mfn_` the code
returns before decoding, so validation succeeds even though the current
time (200 s) is past the expiry (100 s) — contradicting the claim's
"fails ... exactly when the current time is at or past the expiry". -/
theorem validateToken_pat_shaped_jwt_cex :
    validateToken "mfn_hdr.eyJleHAiOjEwMH0.sig" (Except.ok ⟨some 100⟩) 200000
        (fun _ => "1970-01-01T00:01:40.000Z") = TokenValidation.ok ∧
    jwsPartCount "mfn_hdr.eyJleHAiOjEwMH0.sig" = 3 ∧
    Int.fdiv 200000 1000 ≥ (100 : Int) :=
  ⟨rfl, by decide, by decide⟩

/-- C5: for every token starting with `mfn_`, `mfp_` or `mcp_`, validation
never fails, whatever follows the prefix and whatever the decode outcome
would have been. -/
theorem validateToken_pat_mcp_never_fails (token : String)
    (decoded : Except String JwtPayload) (nowMs : Int) (isoRender : Int → String)
    (h : strStartsWith token "mfn_" = true ∨ strStartsWith token "mfp_" = true ∨
      strStartsWith token "mcp_" = true) :
    validateToken token decoded nowMs isoRender = TokenValidation.ok := by
  rcases h with h | h | h
  · unfold validateToken
    rw [if_pos (by simp [h])]
  · unfold validateToken
    rw [if_pos (by simp [h])]
  · unfold validateToken
    by_cases hfirst : (strStartsWith token "mfn_" || strStartsWith token "mfp_") = true
    · rw [if_pos hfirst]
    · rw [if_neg hfirst, if_pos h]

/-- Witness for C5: an `mcp_` token with garbage after the prefix and a
failing decode outcome still validates. -/
theorem validateToken_pat_mcp_never_fails_witness :
    validateToken "mcp_###not.a.jwt###" (Except.error "boom") 999999999 (fun _ => "")
      = TokenValidation.ok :=
  validateToken_pat_mcp_never_fails "mcp_###not.a.jwt###" (Except.error "boom") 999999999
    (fun _ => "") (Or.inr (Or.inr (by decide)))

/-- C10: a token with exactly three dot-separated segments whose payload
decodes successfully but carries no `exp` claim validates without error:
the JavaScript comparison `currentTime >= undefined` is false, so the
expired branch is never taken and the token is treated as non-expiring
locally. -/
theorem validateToken_no_exp_claim_ok (token : String) (nowMs : Int)
    (isoRender : Int → String) (hparts : jwsPartCount token = 3) :
    validateToken token (Except.ok ⟨none⟩) nowMs isoRender = TokenValidation.ok := by
  unfold validateToken
  split_ifs <;> rfl

/-- Witness for C10: the three-segment token `a.b.c` with a decoded payload
lacking `exp` validates at any time. -/
theorem validateToken_no_exp_claim_ok_witness :
    validateToken "a.b.c" (Except.ok ⟨none⟩) 123456789 (fun _ => "")
      = TokenValidation.ok :=
  validateToken_no_exp_claim_ok "a.b.c" 123456789 (fun _ => "") (by decide)

/-- C6 (amended): the 400 classifier's exact precedence, with JavaScript
truthiness: a truthy `errors` field yields `Validation failed` with
`validation_errors` details; else a truthy `validation_errors` field yields
the body's non-empty string `error` field (an absent, non-string, or
empty-string `error` yields `Code validation failed`) with those details;
else a string `error` field is used verbatim; else a string `message`
field; else `Invalid request`. -/
theorem classify400_precedence (errorBody : Json) :
    (∀ v, jsGet errorBody "errors" = some v → jsTruthy v = true →
      classify400 errorBody
        = ("Validation failed", Json.obj [("validation_errors", v)])) ∧
    (jsFieldTruthy errorBody "errors" = false →
      ∀ w, jsGet errorBody "validation_errors" = some w → jsTruthy w = true →
        (∀ s, jsGetStr errorBody "error" = some s → s ≠ "" →
          classify400 errorBody = (s, Json.obj [("validation_errors", w)])) ∧
        ((jsGetStr errorBody "error" = none ∨ jsGetStr errorBody "error" = some "") →
          classify400 errorBody
            = ("Code validation failed", Json.obj [("validation_errors", w)]))) ∧
    (jsFieldTruthy errorBody "errors" = false →
      jsFieldTruthy errorBody "validation_errors" = false →
      (∀ s, jsGetStr errorBody "error" = some s →
        classify400 errorBody = (s, Json.obj [])) ∧
      (jsGetStr errorBody "error" = none →
        ∀ s, jsGetStr errorBody "message" = some s →
          classify400 errorBody = (s, Json.obj [])) ∧
      (jsGetStr errorBody "error" = none → jsGetStr errorBody "message" = none →
        classify400 errorBody = ("Invalid request", Json.obj []))) := by
  refine ⟨?_, ?_, ?_⟩
  · intro v hv htv
    have hobj := jsGet_some_isErrorObject hv
    have hft : jsFieldTruthy errorBody "errors" = true := by
      simp [jsFieldTruthy, hv, htv]
    simp [classify400, hobj, hft, hv]
  · intro hf w hw htw
    have hobj := jsGet_some_isErrorObject hw
    have hft2 : jsFieldTruthy errorBody "validation_errors" = true := by
      simp [jsFieldTruthy, hw, htw]
    constructor
    · intro s hs hsne
      simp [classify400, hf, hobj, hft2, hs, hsne, hw]
    · intro hor
      rcases hor with h | h <;> simp [classify400, hf, hobj, hft2, h, hw]
  · intro hf hfv
    refine ⟨?_, ?_, ?_⟩
    · intro s hs
      have hobj := jsGet_some_isErrorObject (jsGetStr_some_jsGet hs)
      simp [classify400, hf, hfv, hobj, hs]
    · intro he s hs
      have hobj := jsGet_some_isErrorObject (jsGetStr_some_jsGet hs)
      simp [classify400, hf, hfv, he, hobj, hs]
    · intro he hm
      simp [classify400, hf, hfv, he, hm]

/-- Witness for C6: the spec's own example — a 400 body
`\x7b"errors": \x7b"name": ["is required"]\x7d\x7d` — yields
`Validation failed` with the errors object as `validation_errors`. -/
theorem classify400_precedence_witness :
    classify400 (Json.obj [("errors", Json.obj [("name", Json.arr [Json.str "is required"])])])
      = ("Validation failed",
        Json.obj [("validation_errors",
          Json.obj [("name", Json.arr [Json.str "is required"])])]) :=
  (classify400_precedence
      (Json.obj [("errors", Json.obj [("name", Json.arr [Json.str "is required"])])])).1
    (Json.obj [("name", Json.arr [Json.str "is required"])]) rfl rfl

/-- C6 counterexample: the 400 body `\x7b"errors":false\x7d` has an
`errors` field, but the field is falsy, so the code falls through all the
branches and produces `Invalid request`, not `Validation failed` as the
claim states for every body with an `errors` field. -/
theorem handleApiError400_falsy_errors_cex :
    (handleApiError 400 "Bad Request" "\x7b\"errors\":false\x7d"
        (some (Json.obj [("errors", Json.bool false)]))).userMessage = "Invalid request" ∧
    jsGet (Json.obj [("errors", Json.bool false)]) "errors" = some (Json.bool false) :=
  ⟨rfl, rfl⟩

/-- C8: `updateSecret` and `rewriteFunction` fail immediately and locally
with their fixed "not supported" errors; their traces contain no HTTP
request, so the bounded executor is never invoked on these paths. -/
theorem unsupported_ops_fail_locally (username functionName secretId value code : String) :
    updateSecretRequests username functionName secretId value
      = [GatewayAction.throwLocalError
          "Update secret not implemented - use create/delete instead"] ∧
    hasRequestB (updateSecretRequests username functionName secretId value) = false ∧
    rewriteFunctionRequests code
      = [GatewayAction.throwLocalError
          "Function rewrite endpoint is not available via v1 API."] ∧
    hasRequestB (rewriteFunctionRequests code) = false :=
  ⟨rfl, rfl, rfl, rfl⟩

/-- Witness for C8: concrete instantiation of the unsupported operations. -/
theorem unsupported_ops_fail_locally_witness :
    updateSecretRequests "alice" "weather-fn" "SECRET_KEY" "newvalue"
      = [GatewayAction.throwLocalError
          "Update secret not implemented - use create/delete instead"] :=
  (unsupported_ops_fail_locally "alice" "weather-fn" "SECRET_KEY" "newvalue" "code").1

/-- C9 (amended): local token validation is invoked only by
`listWorkspaces`; every other gateway operation performs none, and every
other operation except the locally-unsupported `updateSecret` and
`rewriteFunction` issues its HTTP request regardless of the token's local
state (those two throw locally without any request). -/
theorem tokenValidation_only_in_list
    (baseUrl runBaseUrl username functionName secretId value code : String)
    (uriEncode : String → String) :
    listWorkspacesRequests runBaseUrl
      = [GatewayAction.validateTokenCall,
         GatewayAction.httpRequest "GET" (runBaseUrl ++ "/api/v1/functions")] ∧
    hasValidateB (listWorkspacesRequests runBaseUrl) = true ∧
    (hasValidateB (listPackagesRequests baseUrl username functionName) = false ∧
      hasRequestB (listPackagesRequests baseUrl username functionName) = true) ∧
    (hasValidateB (createWorkspaceRequests baseUrl) = false ∧
      hasRequestB (createWorkspaceRequests baseUrl) = true) ∧
    (hasValidateB (renameWorkspaceRequests baseUrl username functionName) = false ∧
      hasRequestB (renameWorkspaceRequests baseUrl username functionName) = true) ∧
    (hasValidateB (getFunctionCodeRequests baseUrl username functionName) = false ∧
      hasRequestB (getFunctionCodeRequests baseUrl username functionName) = true) ∧
    (hasValidateB (getFunctionRequests baseUrl username functionName) = false ∧
      hasRequestB (getFunctionRequests baseUrl username functionName) = true) ∧
    (hasValidateB (updateFunctionCodeRequests baseUrl username functionName) = false ∧
      hasRequestB (updateFunctionCodeRequests baseUrl username functionName) = true) ∧
    (hasValidateB (updateFunctionSettingsRequests baseUrl username functionName) = false ∧
      hasRequestB (updateFunctionSettingsRequests baseUrl username functionName) = true) ∧
    (hasValidateB (executeFunctionRequests baseUrl username functionName) = false ∧
      hasRequestB (executeFunctionRequests baseUrl username functionName) = true) ∧
    (hasValidateB (getLatestDeploymentRequests baseUrl username functionName) = false ∧
      hasRequestB (getLatestDeploymentRequests baseUrl username functionName) = true) ∧
    (hasValidateB (waitForDeploymentRequests baseUrl username functionName) = false ∧
      hasRequestB (waitForDeploymentRequests baseUrl username functionName) = true) ∧
    (hasValidateB (listSecretsRequests baseUrl username functionName) = false ∧
      hasRequestB (listSecretsRequests baseUrl username functionName) = true) ∧
    (hasValidateB (createSecretRequests baseUrl username functionName) = false ∧
      hasRequestB (createSecretRequests baseUrl username functionName) = true) ∧
    (hasValidateB (deleteSecretRequests baseUrl username functionName secretId uriEncode)
        = false ∧
      hasRequestB (deleteSecretRequests baseUrl username functionName secretId uriEncode)
        = true) ∧
    (hasValidateB (generateFunctionRequests baseUrl) = false ∧
      hasRequestB (generateFunctionRequests baseUrl) = true) ∧
    (hasValidateB (checkCodeRequests baseUrl) = false ∧
      hasRequestB (checkCodeRequests baseUrl) = true) ∧
    (hasValidateB (getFunctionDetailsRequests baseUrl username functionName) = false ∧
      hasRequestB (getFunctionDetailsRequests baseUrl username functionName) = true) ∧
    (hasValidateB (updateSecretRequests username functionName secretId value) = false ∧
      hasRequestB (updateSecretRequests username functionName secretId value) = false) ∧
    (hasValidateB (rewriteFunctionRequests code) = false ∧
      hasRequestB (rewriteFunctionRequests code) = false) :=
  ⟨rfl, rfl, ⟨rfl, rfl⟩, ⟨rfl, rfl⟩, ⟨rfl, rfl⟩, ⟨rfl, rfl⟩, ⟨rfl, rfl⟩, ⟨rfl, rfl⟩,
    ⟨rfl, rfl⟩, ⟨rfl, rfl⟩, ⟨rfl, rfl⟩, ⟨rfl, rfl⟩, ⟨rfl, rfl⟩, ⟨rfl, rfl⟩, ⟨rfl, rfl⟩,
    ⟨rfl, rfl⟩, ⟨rfl, rfl⟩, ⟨rfl, rfl⟩, ⟨rfl, rfl⟩, ⟨rfl, rfl⟩⟩

/-- Witness for C9: the list operation's trace at the default base URL,
showing local validation preceding the request. -/
theorem tokenValidation_only_in_list_witness :
    listWorkspacesRequests "https://microfn.dev"
      = [GatewayAction.validateTokenCall,
         GatewayAction.httpRequest "GET" ("https://microfn.dev" ++ "/api/v1/functions")] :=
  (tokenValidation_only_in_list "https://microfn.dev/api" "https://microfn.dev" "alice"
    "weather-fn" "SECRET_KEY" "v" "code" id).1

/-- C9 counterexample: `updateSecret` is a non-list gateway operation, yet
its trace contains no HTTP request at all (it throws locally), so the
claim's "for every non-list operation ... still produces a network call"
fails on it. -/
theorem updateSecret_no_request_cex :
    hasRequestB (updateSecretRequests "alice" "weather-fn" "SECRET_KEY" "v") = false ∧
    updateSecretRequests "alice" "weather-fn" "SECRET_KEY" "v"
      = [GatewayAction.throwLocalError
          "Update secret not implemented - use create/delete instead"] :=
  ⟨rfl, rfl⟩
